import Mathlib

/-!
Verification of the GitHub ETL pipeline (extract / transform / load).

This file gives a shallow embedding, in Lean 4, of the three Python modules
of the repository:

* src/extract.py — rate-limited HTTP requests and Link-header pagination;
* src/transform.py — polars typing, derived columns and the recency filter;
* src/load.py — the DuckDB writer (schema-aware by intent; its schema path
  reads an attribute polars DataFrames do not provide, see the loader section).

External collaborators (the HTTP transport, the dataframe library's columnar
kernels, the SQL store) are modelled by explicit state: a mock transport is a
list of responses, a dataframe is a list of typed columns plus a row-major
list of cells, the destination store is the state of the destination table.
Machine integers are modelled as Int (Python integers are unbounded; the
int64 columns of the pipeline hold GitHub counters, far from 2^63).
Float64 cells are modelled as a finite rational, +inf, -inf or NaN.
-/

namespace GithubEtl

/-! ## Extractor: src/extract.py -/

/-- RATE_CUSHION constant of src/extract.py (line 27): seconds added to the
rate-limit reset wait. -/
def RATE_CUSHION : Int := 10

/-- One HTTP response, as far as the rate-limit logic of src/extract.py reads
it: the status code, whether the header map contains "X-RateLimit-Remaining",
and the integer value of the "X-RateLimit-Reset" header (an epoch second). -/
structure Response where
  status : Nat
  hasRateLimitRemaining : Bool
  rateLimitReset : Int
  deriving DecidableEq, Repr

/-- The guard of src/extract.py line 61:
status == 403 and "X-RateLimit-Remaining" in response.headers. -/
def isRateLimited (r : Response) : Bool :=
  r.status == 403 && r.hasRateLimitRemaining

/-- The wait computed at src/extract.py line 63:
max(reset_time - int(time.time()), 0) + RATE_CUSHION. -/
def rateWait (now : Int) (r : Response) : Int :=
  max (r.rateLimitReset - now) 0 + RATE_CUSHION

/-- Outcome of the while-loop of the request function: a 2xx response is
returned, a non-2xx non-rate-limited response raises HTTPStatusError
(httpx raise_for_status, src/extract.py line 68), and transportExhausted
marks a mock transport that ran out of scripted responses while the loop
would have kept retrying. -/
inductive ReqOutcome where
  | success (r : Response)
  | httpError (r : Response)
  | transportExhausted
  deriving DecidableEq, Repr

/-- The while-loop of the request function at src/extract.py lines 58-69,
run against a mock transport: the list holds the responses the server gives
to the successive issues of the one fixed request (the loop re-sends the
same url, params and headers each time).  The result is the total number of
seconds slept across all rate-limit waits, paired with the outcome; the
clock argument is int(time.time()) at the first send, and advances by the
slept amount before each retry. -/
def request_loop : Int → List Response → Int × ReqOutcome
  | _, [] => (0, ReqOutcome.transportExhausted)
  | now, r :: rest =>
    if isRateLimited r then
      let w := rateWait now r
      let res := request_loop (now + w) rest
      (w + res.1, res.2)
    else if 200 ≤ r.status ∧ r.status < 300 then
      (0, ReqOutcome.success r)
    else
      (0, ReqOutcome.httpError r)

/-- One repository object of a list-org-repos page body; the pagination code
only reads its "full_name" field (src/extract.py line 107). -/
structure RepoObj where
  full_name : String
  deriving DecidableEq, Repr

/-- One parsed segment of an RFC5988 Link header: the code takes the part
before ";" stripped of "<>" as the url, and matches the rel attribute
(src/extract.py lines 89-91). -/
structure LinkEntry where
  url : String
  rel : String
  deriving DecidableEq, Repr

/-- One page returned by the mock paginated API: the JSON body (a list of
repository objects) and the parsed Link header, none when the "Link" header
is absent from the response. -/
structure PageResponse where
  body : List RepoObj
  linkHeader : Option (List LinkEntry)
  deriving DecidableEq, Repr

/-- The next-url extraction of src/extract.py lines 82-95: break when the
Link header is absent; otherwise scan the comma-split segments for the first
one carrying rel="next" and take its url; break when none is found.  The
code's final guard is the Python truthiness test on next_link, so an empty
url string also ends the pagination. -/
def nextLink : Option (List LinkEntry) → Option String
  | none => none
  | some links =>
    match links.find? (fun l => l.rel == "next") with
    | none => none
    | some l => if l.url == "" then none else some l.url

/-- Query parameters of a request, as a list of key-value pairs. -/
abbrev Params := List (String × String)

/-- A mock paginated API: maps a url and query parameters to the page the
server answers with, none when the mock defines no answer for that request. -/
abbrev MockApi := String → Params → Option PageResponse

/-- The pagination generator of src/extract.py lines 73-97, materialised
against a mock API: request the url, yield the page, then follow the Link
rel="next" url, passing the same query parameters to every request, until a
page has no next link.  The fuel argument bounds the number of pages
fetched so that the function is total; none is returned when the fuel runs
out or the mock has no answer for a requested url. -/
def paginate (api : MockApi) (params : Params) : Nat → String → Option (List PageResponse)
  | 0, _ => none
  | fuel + 1, url =>
    match api url params with
    | none => none
    | some p =>
      match nextLink p.linkHeader with
      | none => some [p]
      | some u => (paginate api params fuel u).map (fun ps => p :: ps)

/-- BASE constant of src/extract.py line 13. -/
def BASE : String := "https://api.github.com"

/-- The request parameters built by list_org_repos (src/extract.py
line 104): per_page from the argument and type=public. -/
def orgParams (per_page : Nat) : Params :=
  [("per_page", toString per_page), ("type", "public")]

/-- The url built by list_org_repos (src/extract.py line 103). -/
def orgUrl (org : String) : String :=
  BASE ++ "/orgs/" ++ org ++ "/repos"

/-- list_org_repos of src/extract.py lines 101-108, against a mock API:
paginate from the org listing endpoint and collect the full_name of every
repository object of every page body, in page order. -/
def list_org_repos (api : MockApi) (org : String) (per_page : Nat) (fuel : Nat) :
    Option (List String) :=
  (paginate api (orgParams per_page) fuel (orgUrl org)).map
    (fun ps => ps.flatMap (fun p => p.body.map RepoObj.full_name))

/-- A K-page chain of the mock API: from the start url, every page answers
the request with the same query parameters, each page but the last links to
the next page's url through rel="next", and the last page has no next link.
This is the shape of the mock paginated API of the pagination claims. -/
inductive Chain (api : MockApi) (params : Params) : String → List PageResponse → Prop
  | last (url : String) (p : PageResponse) :
      api url params = some p → nextLink p.linkHeader = none →
      Chain api params url [p]
  | step (url : String) (p : PageResponse) (u : String) (ps : List PageResponse) :
      api url params = some p → nextLink p.linkHeader = some u →
      Chain api params u ps →
      Chain api params url (p :: ps)

/-- C2: on an HTTP 403 response carrying the rate-limit-remaining header, the
request function sleeps exactly max(reset_epoch - now, 0) + 10 seconds (the
cushion is the fixed 10-second RATE_CUSHION) and then reissues the same
request at the advanced clock; it repeats with no retry-count ceiling, for
any number of consecutive rate-limited responses, until a response succeeds
(2xx) or fails for a non-rate-limit reason; with reset_epoch = now + 5 the
wait before the retry is exactly 15 seconds. -/
theorem request_rate_limit_retry (now : Int) (r : Response) (rest : List Response)
    (h : isRateLimited r = true) :
    request_loop now (r :: rest) =
      (rateWait now r + (request_loop (now + rateWait now r) rest).1,
       (request_loop (now + rateWait now r) rest).2)
    ∧ rateWait now r = max (r.rateLimitReset - now) 0 + 10
    ∧ (r.rateLimitReset = now + 5 → rateWait now r = 15)
    ∧ (∀ rs : List Response, (∀ x ∈ rs, isRateLimited x = true) →
        ∀ last : Response, isRateLimited last = false →
          (request_loop now (rs ++ [last])).2 =
            (if 200 ≤ last.status ∧ last.status < 300 then ReqOutcome.success last
             else ReqOutcome.httpError last)) := by
  refine ⟨by simp [request_loop, h], rfl, ?_, ?_⟩
  · intro h5
    simp only [rateWait, RATE_CUSHION, h5]
    omega
  · intro rs hall last hlast
    induction rs generalizing now with
    | nil =>
      simp only [List.nil_append, request_loop, hlast, Bool.false_eq_true, if_false]
      split <;> rfl
    | cons x xs ih =>
      have hx : isRateLimited x = true := hall x (by simp)
      have hxs : ∀ y ∈ xs, isRateLimited y = true := fun y hy => hall y (by simp [hy])
      simp only [List.cons_append, request_loop, hx, if_true]
      exact ih (now + rateWait now x) hxs

/-- Witness for request_rate_limit_retry: a mocked 403 response with
reset-epoch 105 observed at clock 100 (reset = now + 5) followed by a 200
response; the loop sleeps exactly 15 seconds and then succeeds. -/
theorem request_rate_limit_retry_witness :
    request_loop 100 [⟨403, true, 105⟩, ⟨200, false, 0⟩] =
      (15, ReqOutcome.success ⟨200, false, 0⟩)
    ∧ rateWait 100 ⟨403, true, 105⟩ = 15 := by
  have h := request_rate_limit_retry 100 ⟨403, true, 105⟩ [⟨200, false, 0⟩] (by decide)
  refine ⟨?_, h.2.2.1 (by decide)⟩
  rw [h.1]
  decide

/-- Helper for the pagination claim: along a K-page chain of the mock API,
the pagination loop fetches exactly the pages of the chain, in order, given
fuel for at least K requests (in particular it terminates at the first page
without a next link: the result does not depend on the fuel beyond K). -/
theorem paginate_of_chain (api : MockApi) (params : Params) :
    ∀ (url : String) (ps : List PageResponse), Chain api params url ps →
      ∀ fuel : Nat, ps.length ≤ fuel →
        paginate api params fuel url = some ps := by
  intro url ps hc
  induction hc with
  | last url p hapi hnext =>
    intro fuel hf
    cases fuel with
    | zero => exact absurd hf (by simp)
    | succ f => simp [paginate, hapi, hnext]
  | step url p u ps hapi hnext _ ih =>
    intro fuel hf
    cases fuel with
    | zero => exact absurd hf (by simp)
    | succ f =>
      have hle : ps.length ≤ f := by
        simp only [List.length_cons] at hf
        omega
      simp [paginate, hapi, hnext, ih f hle]

/-- C3: against a mock paginated API shaped as a K-page chain (every page
but the last linking to the next page's url through the Link header's
rel="next" entry, the last page lacking a Link header or a rel="next"
entry), the pagination loop yields exactly the K pages in page order and
terminates there, and list_org_repos yields exactly the concatenation of
all K pages' items (their full_name fields) in page order. -/
theorem list_org_repos_paginates (api : MockApi) (org : String) (per_page : Nat)
    (ps : List PageResponse) (fuel : Nat)
    (hchain : Chain api (orgParams per_page) (orgUrl org) ps)
    (hfuel : ps.length ≤ fuel) :
    paginate api (orgParams per_page) fuel (orgUrl org) = some ps
    ∧ list_org_repos api org per_page fuel =
        some (ps.flatMap (fun p => p.body.map RepoObj.full_name)) := by
  have h := paginate_of_chain api (orgParams per_page) (orgUrl org) ps hchain fuel hfuel
  exact ⟨h, by simp [list_org_repos, h]⟩

/-- First page of the concrete three-page mock API of the pagination
witness. -/
def wPage1 : PageResponse := ⟨[⟨"acme/r1"⟩, ⟨"acme/r2"⟩], some [⟨"u2", "next"⟩]⟩

/-- Second page of the concrete mock API; its Link header also carries a
rel="prev" entry that the loop must ignore. -/
def wPage2 : PageResponse := ⟨[⟨"acme/r3"⟩], some [⟨"u1", "prev"⟩, ⟨"u3", "next"⟩]⟩

/-- Last page of the concrete mock API: no Link header. -/
def wPage3 : PageResponse := ⟨[⟨"acme/r4"⟩], none⟩

/-- The concrete three-page mock API of the pagination witness. -/
def wApi : MockApi := fun url params =>
  if params = orgParams 100 then
    if url = orgUrl "acme" then some wPage1
    else if url = "u2" then some wPage2
    else if url = "u3" then some wPage3
    else none
  else none

/-- Witness for list_org_repos_paginates: on the concrete three-page mock
API, list_org_repos returns the four repository names in page order. -/
theorem list_org_repos_paginates_witness :
    list_org_repos wApi "acme" 100 3 = some ["acme/r1", "acme/r2", "acme/r3", "acme/r4"] := by
  have hchain : Chain wApi (orgParams 100) (orgUrl "acme") [wPage1, wPage2, wPage3] :=
    Chain.step _ _ "u2" _ (by decide) (by decide)
      (Chain.step _ _ "u3" _ (by decide) (by decide)
        (Chain.last _ _ (by decide) (by decide)))
  have h := list_org_repos_paginates wApi "acme" 100 [wPage1, wPage2, wPage3] 3 hchain
    (by decide)
  rw [h.2]
  decide

/-! ## Data model shared by the transformer and the loader

A polars DataFrame is modelled as a list of named, typed columns plus a
row-major list of cells; a DuckDB table as a list of named columns with
their SQL types, the optional primary-key column, and its rows. -/

/-- A Float64 cell: a finite value (as an exact rational), +inf, -inf or
NaN. -/
inductive PFloat where
  | finite (q : ℚ)
  | inf
  | neginf
  | nan
  deriving DecidableEq, Repr

/-- One cell of a dataframe or table.  Datetimes carry the UTC epoch second
(polars stores an epoch tick count; the unit scale is irrelevant to the
claims, so seconds are used throughout). -/
inductive Value where
  | int (i : Int)
  | float (x : PFloat)
  | str (s : String)
  | bool (b : Bool)
  | datetime (t : Int)
  | null
  deriving DecidableEq, Repr

/-- The polars dtype of a column, to the granularity the transformer needs
(the loader never reads a dtype: its schema path fails first, see the
loader section below). -/
inductive DType where
  | int64
  | float64
  | string
  | boolean
  | datetime
  | list
  | nullT
  deriving DecidableEq, Repr

/-- A polars DataFrame: named, typed columns and row-major cells.  Polars
guarantees distinct column names and rows exactly as long as the column
list. -/
structure Frame where
  cols : List (String × DType)
  rows : List (List Value)
  deriving DecidableEq, Repr

/-- The column names of a frame, in order. -/
def Frame.names (f : Frame) : List String := f.cols.map Prod.fst

/-- df.is_empty() of polars: true when the frame has no rows
(src/load.py line 113). -/
def Frame.is_empty (f : Frame) : Bool := f.rows.isEmpty

/-- The destination DuckDB table: named columns with their SQL type
strings, the primary-key column when one was declared at creation, and the
rows, positionally aligned with the columns. -/
structure Table where
  cols : List (String × String)
  pk : Option String
  rows : List (List Value)
  deriving DecidableEq, Repr

/-! ## Loader: src/load.py

The store state is modelled as the state of the one destination table:
none when the table is absent from the database file, some t when it
exists.  DuckDB runs in autocommit mode and src/load.py never issues BEGIN
TRANSACTION (the conn.commit() of line 135 is never even reached), so each
statement's effect commits as soon as it executes and an error mid-call
keeps the effects of the statements already run.

The schema path of the loader is broken: both _prepare_table (line 53) and
_add_missing_columns (line 87) read df.schema_arrow, an attribute polars
DataFrames do not have (the Arrow schema is only reachable through
df.to_arrow().schema).  So every nonempty write raises AttributeError — in
_prepare_table before any CREATE when the table is absent, in
_add_missing_columns before any ALTER when it exists — and the bulk insert
of lines 128-136 is dead code.  The SQL type dict of lines 58-64 and 92-98
is dead code too, and would moreover miss its keys: the lookup is keyed on
str(field.type.to_pandas_dtype()), which for every primitive Arrow type is
the numpy class notation (the int64 entry would be looked up under the
text "<class 'numpy.int64'>"), matching no key, so only datetime64[ns] — a
dtype instance — would map and every other column would fall to the
VARCHAR default. -/

/-- The errors write_frame can raise: the ValueError of src/load.py
line 119 for an invalid mode, and the Python AttributeError raised when a
helper reads an attribute the polars DataFrame does not have
(df.schema_arrow at lines 53 and 87). -/
inductive LoadError where
  | invalidMode
  | attributeError (attr : String)
  deriving DecidableEq, Repr

/-- The log lines write_frame prints: the empty-input message of
src/load.py line 114, and the success message of line 136. -/
inductive LogEvent where
  | emptyNothingToWrite
  | wroteRows (n : Nat)
  deriving DecidableEq, Repr

/-- What one write_frame call leaves behind: the committed store state, the
log lines printed, and the error raised, none when the call returned
normally. -/
structure WriteResult where
  store : Option Table
  log : List LogEvent
  err : Option LoadError
  deriving DecidableEq, Repr

/-- str.lower() of Python, byte-for-byte on the mode strings the loader
compares. -/
def lowerStr (s : String) : String := ⟨s.data.map Char.toLower⟩

/-- _prepare_table of src/load.py lines 37-75: the information_schema
lookup of lines 42-47 succeeds, and when the destination table exists the
function returns at line 50 having touched nothing.  When the table is
absent, line 53 reads df.schema_arrow — an attribute polars DataFrames do
not have — so the call raises AttributeError before the CREATE TABLE of
lines 52-75 is ever built or executed. -/
def prepare_table (store : Option Table) (_df : Frame) : Except LoadError Table :=
  match store with
  | some t => Except.ok t
  | none => Except.error (LoadError.attributeError "schema_arrow")

/-- _add_missing_columns of src/load.py lines 78-99: the existing column
names are read (lines 80-86), then line 87 reads df.schema_arrow, absent
from polars DataFrames, so every call raises AttributeError before any
ALTER TABLE of line 99 is executed. -/
def add_missing_columns (_t : Table) (_df : Frame) : Except LoadError Table :=
  Except.error (LoadError.attributeError "schema_arrow")

/-- write_frame of src/load.py lines 103-136, on the state of the
destination table.  Empty input returns at once with only a log line
(lines 113-115), before the mode is validated; then the lowered mode is
checked (lines 117-119); overwrite drops the table (line 123), a statement
that commits at once under autocommit; _prepare_table runs next and
_add_missing_columns after it.  Both raise AttributeError on the paths
that read df.schema_arrow, so every nonempty call with a valid mode fails
there, keeping the statements already committed (under overwrite, the
drop).  The success branch — the INSERT OR IGNORE bulk insert and the log
line of lines 128-136 — is unreachable dead code, modelled only by its
success record. -/
def write_frame (df : Frame) (store : Option Table) (mode : String) : WriteResult :=
  if df.is_empty then
    { store := store, log := [LogEvent.emptyNothingToWrite], err := none }
  else
    let m := lowerStr mode
    if m = "append" ∨ m = "overwrite" then
      let s1 : Option Table := if m = "overwrite" then none else store
      match prepare_table s1 df with
      | Except.error e => { store := s1, log := [], err := some e }
      | Except.ok t2 =>
        match add_missing_columns t2 df with
        | Except.error e => { store := some t2, log := [], err := some e }
        | Except.ok t3 =>
          { store := some t3, log := [LogEvent.wroteRows df.rows.length], err := none }
    else
      { store := store, log := [], err := some LoadError.invalidMode }

/-- C6: write_frame called with an empty tabular structure is a no-op apart
from the empty-input log message: it performs no DDL and no insert, raises
no error, and whatever destination table exists (schema and contents) is
left exactly as it was. -/
theorem write_frame_empty_noop (f : Frame) (store : Option Table)
    (h : f.rows = []) :
    write_frame f store "append" =
      { store := store, log := [LogEvent.emptyNothingToWrite], err := none } := by
  simp [write_frame, Frame.is_empty, h]

/-- Witness for write_frame_empty_noop: an empty frame written over an
existing one-row table leaves the table untouched. -/
theorem write_frame_empty_noop_witness :
    write_frame ⟨[("id", DType.int64)], []⟩
        (some ⟨[("id", "BIGINT")], some "id", [[Value.int 1]]⟩) "append" =
      { store := some ⟨[("id", "BIGINT")], some "id", [[Value.int 1]]⟩,
        log := [LogEvent.emptyNothingToWrite], err := none } :=
  write_frame_empty_noop _ _ rfl

/-- C10: the empty-input check of write_frame runs before the mode argument
is validated and before the overwrite branch, so with empty input and any
mode string whatsoever — invalid ones and "overwrite" included — write_frame
raises no ValueError and does not drop the existing destination table. -/
theorem write_frame_empty_before_mode (f : Frame) (store : Option Table) (mode : String)
    (h : f.rows = []) :
    write_frame f store mode =
      { store := store, log := [LogEvent.emptyNothingToWrite], err := none } := by
  simp [write_frame, Frame.is_empty, h]

/-- Witness for write_frame_empty_before_mode: empty input with an invalid
mode raises nothing, and empty input with mode overwrite does not drop the
existing table. -/
theorem write_frame_empty_before_mode_witness :
    write_frame ⟨[("id", DType.int64)], []⟩
        (some ⟨[("id", "BIGINT")], some "id", [[Value.int 7]]⟩) "bogus" =
      { store := some ⟨[("id", "BIGINT")], some "id", [[Value.int 7]]⟩,
        log := [LogEvent.emptyNothingToWrite], err := none }
    ∧ write_frame ⟨[("id", DType.int64)], []⟩
        (some ⟨[("id", "BIGINT")], some "id", [[Value.int 7]]⟩) "overwrite" =
      { store := some ⟨[("id", "BIGINT")], some "id", [[Value.int 7]]⟩,
        log := [LogEvent.emptyNothingToWrite], err := none } :=
  ⟨write_frame_empty_before_mode _ _ _ rfl, write_frame_empty_before_mode _ _ _ rfl⟩

/-- C7 failing input: mode overwrite with an existing destination table
and nonempty incoming data.  The DROP TABLE IF EXISTS of line 123 executes
and commits at once — DuckDB autocommits, no BEGIN TRANSACTION is ever
issued, and the conn.commit() of line 135 is never even reached — and then
_prepare_table raises AttributeError at df.schema_arrow (line 53) before
any CREATE.  The call errors having destroyed the table: the destination
is not left in its prior committed state, contradicting the
single-transaction claim. -/
theorem write_frame_not_atomic :
    (write_frame ⟨[("id", DType.int64)], [[Value.int 2]]⟩
        (some ⟨[("id", "BIGINT")], some "id", [[Value.int 1]]⟩) "overwrite").err
      = some (LoadError.attributeError "schema_arrow")
    ∧ (write_frame ⟨[("id", DType.int64)], [[Value.int 2]]⟩
        (some ⟨[("id", "BIGINT")], some "id", [[Value.int 1]]⟩) "overwrite").store
      = none
    ∧ (none : Option Table) ≠ some ⟨[("id", "BIGINT")], some "id", [[Value.int 1]]⟩ := by
  decide

/-- C1 failing input: the first nonempty append write of id-keyed rows
against the absent destination table.  _prepare_table raises
AttributeError at df.schema_arrow (src/load.py line 53) before any CREATE
or INSERT: no table is created, no row is written and the call errors, so
a repeated run never reaches the skip-duplicates path and the claim's
"not errored on" already fails on the very first write. -/
theorem write_frame_first_write_raises :
    write_frame ⟨[("id", DType.int64), ("full_name", DType.string)],
        [[Value.int 1, Value.str "a/r1"], [Value.int 2, Value.str "a/r2"]]⟩ none "append"
      = { store := none, log := [],
          err := some (LoadError.attributeError "schema_arrow") } := by
  decide

/-- C8 failing input: an append write of a nonempty frame carrying a new
language column against an existing id-only table.  _add_missing_columns
raises AttributeError at df.schema_arrow (src/load.py line 87) before any
ALTER TABLE: the call errors, the table keeps its single id column, and
its column set does not become the union of the names seen, which the new
language column would have to join. -/
theorem write_frame_no_schema_evolution :
    write_frame ⟨[("id", DType.int64), ("language", DType.string)],
        [[Value.int 2, Value.str "Py"]]⟩
      (some ⟨[("id", "BIGINT")], some "id", [[Value.int 1]]⟩) "append"
      = { store := some ⟨[("id", "BIGINT")], some "id", [[Value.int 1]]⟩,
          log := [], err := some (LoadError.attributeError "schema_arrow") }
    ∧ (["id"] : List String) ≠ ["id", "language"] := by
  decide

/-! ## Transformer: src/transform.py -/

/-- The timestamp parser strptime with format "%Y-%m-%dT%H:%M:%SZ" and
strict=False of src/transform.py line 35, abstracted as a function from the
raw string to the parsed UTC epoch second, none on parse failure
(strict=False turns a failed parse into a null cell). -/
abbrev TimeParse := String → Option Int

/-- The polars dtype inferred for a column from a raw JSON cell. -/
def dtypeOfValue : Value → DType
  | Value.int _ => DType.int64
  | Value.float _ => DType.float64
  | Value.str _ => DType.string
  | Value.bool _ => DType.boolean
  | Value.datetime _ => DType.datetime
  | Value.null => DType.nullT

/-- The three timestamp columns of src/transform.py lines 30-31. -/
def time_columns : List String := ["created_at", "updated_at", "pushed_at"]

/-- The six numeric columns of src/transform.py lines 39-40. -/
def numeric_columns : List String :=
  ["id", "stargazers_count", "watchers_count", "size", "open_issues_count", "fork_count"]

/-- The position of a named column in a frame, none when the frame has no
column of that name. -/
def colIndex (f : Frame) (n : String) : Option Nat :=
  f.names.findIdx? (fun m => decide (m = n))

/-- Replacing the dtype and the cells of the column at one position. -/
def withColumnAt (f : Frame) (j : Nat) (dty : DType) (g : Value → Value) : Frame :=
  { cols := f.cols.mapIdx (fun k c => if k = j then (c.1, dty) else c),
    rows := f.rows.map (fun r => r.mapIdx (fun k v => if k = j then g v else v)) }

/-- One cell under str.strptime(pl.Datetime, "%Y-%m-%dT%H:%M:%SZ",
strict=False): a string parses to a datetime or, failing, to null; a null
stays null.  The pipeline's time columns hold strings or nulls at this
point (the str namespace rejects other dtypes). -/
def strptimeValue (parseTs : TimeParse) : Value → Value
  | Value.str s =>
    match parseTs s with
    | some t => Value.datetime t
    | none => Value.null
  | _ => Value.null

/-- The per-column strptime of src/transform.py lines 32-36: applied only
when the column is present. -/
def strptimeColumn (parseTs : TimeParse) (f : Frame) (n : String) : Frame :=
  match colIndex f n with
  | none => f
  | some j => withColumnAt f j DType.datetime (strptimeValue parseTs)

/-- One cell under cast(pl.Int64): integers stay, booleans widen to 0/1,
digit strings parse.  The pipeline's numeric columns hold integers or
nulls, so the strict-cast error path is not modelled. -/
def castInt64Value : Value → Value
  | Value.int i => Value.int i
  | Value.bool b => Value.int (if b then 1 else 0)
  | Value.str s =>
    match s.toInt? with
    | some i => Value.int i
    | none => Value.null
  | _ => Value.null

/-- The per-column Int64 cast of src/transform.py lines 41-45: applied only
when the column is present. -/
def castInt64Column (f : Frame) (n : String) : Frame :=
  match colIndex f n with
  | none => f
  | some j => withColumnAt f j DType.int64 castInt64Value

/-- _to_polars of src/transform.py lines 17-48: empty input gives the empty
zero-column DataFrame pl.DataFrame() (lines 24-25); otherwise the schema
follows the first record's keys with dtypes inferred from its cells, rows
are read off by key (a missing key reads null), the time columns present
are parsed to datetimes and the numeric columns present are cast to Int64.
The df.describe() of line 47 only prints and changes nothing. -/
def to_polars (parseTs : TimeParse) (input : List (List (String × Value))) : Frame :=
  match input with
  | [] => { cols := [], rows := [] }
  | r0 :: _ =>
    let names := r0.map Prod.fst
    let base : Frame :=
      { cols := r0.map (fun kv => (kv.1, dtypeOfValue kv.2)),
        rows := input.map (fun r =>
          names.map (fun n => ((r.find? (fun kv => kv.1 == n)).map Prod.snd).getD Value.null)) }
    let timed := time_columns.foldl (fun acc n => strptimeColumn parseTs acc n) base
    numeric_columns.foldl (fun acc n => castInt64Column acc n) timed

/-- The errors the transform stages raise: polars ColumnNotFoundError for
an expression referencing an absent column (reachable in
_filter_active_repos taken alone), and Python AttributeError for reading
an attribute an object does not have (raised by _add_derived_columns while
its expression list is being built). -/
inductive TransformError where
  | columnNotFound (name : String)
  | attributeError (attr : String)
  deriving DecidableEq, Repr

/-- The cell of a row at a column position; out-of-range reads null (rows
are exactly as long as the column list in every well-formed frame). -/
def rowVal (r : List Value) (j : Nat) : Value := (r.get? j).getD Value.null

/-- _add_derived_columns of src/transform.py lines 50-63: line 59 builds
(now - pl.col("pushed_at")).dt.days.alias("days_since_last_push"), but
dt.days is a method of the expression's dt namespace (polars always spelt
it dt.days(), later deprecated for dt.total_days() and removed in 1.0),
never a property.  The uncalled .days is a bound method, and .alias on it
raises AttributeError while the expression list is being built — before
with_columns runs, for every frame and every clock.  Neither
days_since_last_push nor star_fork_ratio is ever derived (the division
expression of line 60 is well formed by itself but is never reached). -/
def add_derived_columns (_now : Int) (_f : Frame) : Except TransformError Frame :=
  Except.error (TransformError.attributeError "alias")

/-- ACTIVE_DAYS of src/transform.py line 14: the configured recency
threshold, 180 days when the config does not set active_days.  The filter
takes the threshold as a parameter; this constant is the default. -/
def ACTIVE_DAYS : Int := 180

/-- _filter_active_repos of src/transform.py lines 65-69: keep exactly the
rows whose days_since_last_push cell compares at most the threshold; a null
cell makes the comparison null and polars filter drops the row.  The
referenced column must exist or polars raises ColumnNotFoundError. -/
def filter_active_repos (active_days : Int) (f : Frame) : Except TransformError Frame :=
  match colIndex f "days_since_last_push" with
  | none => Except.error (TransformError.columnNotFound "days_since_last_push")
  | some j =>
    Except.ok
      { cols := f.cols,
        rows := f.rows.filter (fun r =>
          match rowVal r j with
          | Value.int d => decide (d ≤ active_days)
          | _ => false) }

/-- transform of src/transform.py lines 71-80: type, derive, filter. -/
def transform (parseTs : TimeParse) (now : Int) (active_days : Int)
    (input : List (List (String × Value))) : Except TransformError Frame :=
  match add_derived_columns now (to_polars parseTs input) with
  | Except.error e => Except.error e
  | Except.ok f2 => filter_active_repos active_days f2

/-- C5 (evidence for the code bug): transform([]) does not return an empty
frame without raising — _to_polars([]) does yield the zero-column empty
DataFrame, but _add_derived_columns then raises AttributeError while
building its expression list (the uncalled .dt.days of src/transform.py
line 59), for every parser, clock and threshold. -/
theorem transform_empty_raises (parseTs : TimeParse) (now active_days : Int) :
    transform parseTs now active_days [] =
      Except.error (TransformError.attributeError "alias") := rfl

/-- A one-row frame on which the spec expects a null star_fork_ratio: a
repository with 5 stars and 0 forks. -/
def cxFrame : Frame :=
  ⟨[("pushed_at", DType.datetime), ("stargazers_count", DType.int64),
    ("fork_count", DType.int64)],
   [[Value.datetime 0, Value.int 5, Value.int 0]]⟩

/-- C4 failing input: the derivation applied to any row at all, here the
one-row frame with stargazers_count = 5 and fork_count = 0 on which the
claim requires a null star_fork_ratio cell.  The code raises
AttributeError at src/transform.py line 59 while the expression list is
built, so no star_fork_ratio value — null or otherwise — is ever derived,
on this frame or any other. -/
theorem star_fork_never_derived :
    add_derived_columns 0 cxFrame = Except.error (TransformError.attributeError "alias")
    ∧ ∀ (now : Int) (f : Frame), add_derived_columns now f =
        Except.error (TransformError.attributeError "alias") :=
  ⟨rfl, fun _ _ => rfl⟩

/-- The raw input row of the recency claim's positive example: a
repository pushed 100 days (8640000 seconds) before the clock the theorem
fixes at 200 days. -/
def wRecencyRaw : List (List (String × Value)) :=
  [[("id", Value.int 1), ("pushed_at", Value.str "2025-07-04T00:00:00Z"),
    ("stargazers_count", Value.int 3), ("fork_count", Value.int 1)]]

/-- C9 failing input: a row pushed 100 days before now with the default
threshold ACTIVE_DAYS = 180, which the claim requires the filtering stage
to retain.  transform raises AttributeError at the derivation stage (the
uncalled .dt.days of src/transform.py line 59) on every input, so
days_since_last_push is never computed, _filter_active_repos is never
reached, and no row is ever included or excluded. -/
theorem filter_never_reached :
    transform (fun s => if s = "2025-07-04T00:00:00Z" then some 8640000 else none)
        17280000 ACTIVE_DAYS wRecencyRaw
      = Except.error (TransformError.attributeError "alias") := rfl

end GithubEtl
